import Mathlib

/-!
Verification of the Notebook Navigator content-generation core.

Shallow embedding of:
- the preview-text content provider (`shouldRegenerate`, `needsProcessing`,
  `processFile`) from `PreviewContentProvider`;
- the PDF cover-thumbnail pipeline (`calculateScale`, `tryCreateWorker`,
  `getSharedWorkerInstance`, `touchWorkerIdleTimer`, `destroySharedWorker`,
  `renderPdfCoverThumbnail`) from `pdfCoverThumbnail.ts`;
- the weighted admission limiter, modelled from the spec (its implementation
  lives outside the provided sources; only its tests and callers are present).
-/

/-! ## Settings and store records for the preview provider -/

/-- Settings snapshot restricted to the options relevant to the preview
provider (`getRelevantSettings` in the source lists exactly these five). -/
structure NotebookNavigatorSettings where
  showFilePreview : Bool
  skipHeadingsInPreview : Bool
  skipCodeBlocksInPreview : Bool
  stripHtmlInPreview : Bool
  previewProperties : List String
deriving DecidableEq

/-- The fields of a stored `FileData` record read by the preview provider:
the recorded modification time and the stored preview (`string | null`). -/
structure FileData where
  mtime : Int
  preview : Option String
deriving DecidableEq

/-- The fields of a `TFile` read by the preview provider. -/
structure MFile where
  path : String
  name : String
  extension : String
  mtime : Int
deriving DecidableEq

/-- A non-null return value of `processFile`: a partial store update carrying
the document path and the new preview text. -/
structure ProcessUpdate where
  path : String
  preview : String
deriving DecidableEq

namespace PreviewContentProvider

/-- `PreviewContentProvider.shouldRegenerate` from the source.  The
`JSON.stringify(old.previewProperties) !== JSON.stringify(new.previewProperties)`
comparison is embedded as list inequality: `JSON.stringify` is injective on
arrays of strings, so inequality of the encodings coincides with inequality
of the lists. -/
def shouldRegenerate (oldSettings newSettings : NotebookNavigatorSettings) : Bool :=
  if !newSettings.showFilePreview && oldSettings.showFilePreview then
    true
  else if newSettings.showFilePreview then
    (oldSettings.showFilePreview != newSettings.showFilePreview) ||
    (oldSettings.skipHeadingsInPreview != newSettings.skipHeadingsInPreview) ||
    (oldSettings.skipCodeBlocksInPreview != newSettings.skipCodeBlocksInPreview) ||
    (oldSettings.stripHtmlInPreview != newSettings.stripHtmlInPreview) ||
    (decide (oldSettings.previewProperties ≠ newSettings.previewProperties))
  else
    false

/-- `PreviewContentProvider.needsProcessing` from the source.
`isExcalidraw` is the result of `PreviewTextUtils.isExcalidrawFile` on the
file name and cached frontmatter (an external utility, passed as an oracle).
Both the Excalidraw branch and the general branch return the same
expression, exactly as in the source. -/
def needsProcessing (fileData : Option FileData) (file : MFile)
    (settings : NotebookNavigatorSettings) (isExcalidraw : Bool) : Bool :=
  if settings.showFilePreview = false ∨ file.extension ≠ "md" then
    false
  else
    let fileModified :=
      match fileData with
      | none => false
      | some fd => decide (fd.mtime ≠ file.mtime)
    let previewMissing :=
      match fileData with
      | none => false
      | some fd => fd.preview.isNone
    if isExcalidraw then
      fileData.isNone || previewMissing || fileModified
    else
      fileData.isNone || previewMissing || fileModified

/-- `PreviewContentProvider.processFile` from the source.
`isExcalidraw` is the `PreviewTextUtils.isExcalidrawFile` oracle;
`readResult` is the outcome of `this.readFileContent(job.file)` (an
exception on read failure); `extractPreviewText` is
`PreviewTextUtils.extractPreviewText` specialised to the current settings
and frontmatter (an external utility, passed as an oracle). -/
def processFile (settings : NotebookNavigatorSettings) (file : MFile)
    (isExcalidraw : Bool) (readResult : Except Unit String)
    (extractPreviewText : String → String)
    (fileData : Option FileData) : Option ProcessUpdate :=
  if settings.showFilePreview = false ∨ file.extension ≠ "md" then
    none
  else if isExcalidraw then
    some ⟨file.path, ""⟩
  else
    match readResult with
    | Except.ok content =>
      let previewText := extractPreviewText content
      match fileData with
      | some fd =>
        if fd.preview = some previewText then none
        else some ⟨file.path, previewText⟩
      | none => some ⟨file.path, previewText⟩
    | Except.error _ =>
      match fileData with
      | some fd =>
        if fd.preview ≠ none then none
        else some ⟨file.path, ""⟩
      | none => some ⟨file.path, ""⟩

end PreviewContentProvider

/-! ## PDF cover thumbnail: scale computation -/

/-- `calculateScale` from `pdfCoverThumbnail.ts`, with JavaScript numbers
embedded as rationals. -/
def calculateScale (baseWidth baseHeight maxWidth maxHeight : ℚ) : ℚ :=
  if baseWidth ≤ 0 ∨ baseHeight ≤ 0 ∨ maxWidth ≤ 0 ∨ maxHeight ≤ 0 then
    1
  else
    let widthScale := maxWidth / baseWidth
    let heightScale := maxHeight / baseHeight
    let scale := min widthScale heightScale
    min 1 scale

/-! ## Weighted admission limiter (modelled from the spec) -/

/-- Modelled from the spec: the state of the weighted admission limiter
(`createRenderBudgetLimiter`), whose implementation file
(`thumbnailRuntimeUtils.ts`) is not among the provided sources — only its
tests and callers are.  `budget` is the fixed total budget, `active` the
currently admitted weight as reported by `getActiveWeight()`, `waiting`
the FIFO queue of clamped weights not yet admitted, and `held` the
clamped weights of admitted, not-yet-released permits. -/
structure BudgetLimiterState where
  budget : Nat
  active : Int
  waiting : List Nat
  held : List Nat
deriving DecidableEq

/-- Modelled from the spec: `getActiveWeight()` reports currently admitted
weight. -/
def getActiveWeight (s : BudgetLimiterState) : Int :=
  s.active

/-- Modelled from the spec: after weight is freed (or a request is queued),
the limiter admits waiters in FIFO arrival order while the head request
fits the remaining budget; a later waiter must not jump ahead of an
earlier one.  Returns the new active weight, held list and waiting queue. -/
def admitLoop (budget : Nat) : List Nat → Int → List Nat → Int × List Nat × List Nat
  | [], active, held => (active, held, [])
  | w :: ws, active, held =>
    if active + (w : Int) ≤ (budget : Int) then
      admitLoop budget ws (active + (w : Int)) (w :: held)
    else
      (active, held, w :: ws)

/-- Modelled from the spec: an observable interaction with the limiter —
an `acquire(weight)` request, or a `release()` of the permit at position
`idx` of the held list. -/
inductive LimiterEvent where
  | acquireReq (weight : Nat)
  | releasePermit (idx : Nat)
deriving DecidableEq

/-- Modelled from the spec: one limiter transition.  `acquire(weight)`
clamps an overweight request to the total budget, enqueues it FIFO, and
admits from the front of the queue while the budget allows; `release()`
frees the permit's weight exactly once and admits the next waiter(s).
A release of a permit that is not held is a programming error and leaves
the state unchanged here. -/
def limiterStep (s : BudgetLimiterState) : LimiterEvent → BudgetLimiterState
  | LimiterEvent.acquireReq w =>
    let clamped := min w s.budget
    let r := admitLoop s.budget (s.waiting ++ [clamped]) s.active s.held
    ⟨s.budget, r.1, r.2.2, r.2.1⟩
  | LimiterEvent.releasePermit i =>
    match s.held.get? i with
    | none => s
    | some w =>
      let r := admitLoop s.budget s.waiting (s.active - (w : Int)) (s.held.eraseIdx i)
      ⟨s.budget, r.1, r.2.2, r.2.1⟩

/-- Modelled from the spec: a freshly created limiter with the given total
budget has no admitted weight, no waiters and no held permits. -/
def initLimiter (budget : Nat) : BudgetLimiterState :=
  ⟨budget, 0, [], []⟩

/-- Modelled from the spec: run a sequence of acquire/release events
against a fresh limiter. -/
def runLimiter (budget : Nat) (events : List LimiterEvent) : BudgetLimiterState :=
  events.foldl limiterStep (initLimiter budget)

/-! ## Shared worker pool state (`pdfCoverThumbnail.ts` module state) -/

/-- The module-level mutable state of `pdfCoverThumbnail.ts`:
`sharedWorker` (is the shared pdf.js worker handle non-null),
`timerArmed` (is `workerIdleTimerId` non-null, i.e. an idle-expiry timeout
is pending), and `active`, the render limiter's active count as reported
by `renderLimiter.getActiveCount()`. -/
structure WorkerPoolState where
  sharedWorker : Bool
  timerArmed : Bool
  active : Nat
deriving DecidableEq

/-- `clearWorkerIdleTimer` from the source: cancels any pending idle
timeout. -/
def clearWorkerIdleTimer (g : WorkerPoolState) : WorkerPoolState :=
  { g with timerArmed := false }

/-- `touchWorkerIdleTimer` from the source: clears the pending timeout,
then returns early if there is no shared worker or the limiter still has
active renders; only otherwise is a fresh idle timeout armed. -/
def touchWorkerIdleTimer (g : WorkerPoolState) : WorkerPoolState :=
  let g1 := clearWorkerIdleTimer g
  if g1.sharedWorker = false then g1
  else if 0 < g1.active then g1
  else { g1 with timerArmed := true }

/-- `destroySharedWorker` from the source: clears the pending timeout,
nulls the shared handle and best-effort destroys the worker (teardown
exceptions are swallowed and do not affect the state). -/
def destroySharedWorker (g : WorkerPoolState) : WorkerPoolState :=
  let g1 := clearWorkerIdleTimer g
  { g1 with sharedWorker := false }

/-- The body of the idle-timeout callback installed by
`touchWorkerIdleTimer`: if the limiter still has active renders it calls
`touchWorkerIdleTimer` (whose guard then leaves the timer disarmed),
otherwise it calls `destroySharedWorker`. -/
def timerFire (g : WorkerPoolState) : WorkerPoolState :=
  if 0 < g.active then touchWorkerIdleTimer g
  else destroySharedWorker g

/-! ## PDF cover thumbnail pipeline -/

/-- `MAX_PDF_THUMBNAIL_BYTES` from the source. -/
def MAX_PDF_THUMBNAIL_BYTES : Nat := 25 * 1024 * 1024

/-- Thumbnail blobs, abstracted: distinct values stand for distinct blobs. -/
abbrev PdfBlob := Nat

/-- The outcome of calling `create({})` on `pdfjs.PDFWorker.create` or of
`new PDFWorker({})`: either a throw, or a returned value that is or is not
a record (`isRecord`). -/
inductive CreateOut where
  | record
  | nonRecord
deriving DecidableEq

/-- The runtime shape of `pdfjs['PDFWorker']` as probed by
`tryCreateWorker`. -/
inductive PdfWorkerField where
  | missing
  | recordNoCreate
  | recordCreate (r : Except Unit CreateOut)
  | func (r : Except Unit CreateOut)

/-- The runtime shape of the value returned by `loadPdfJs()` as probed by
`tryCreateWorker`. -/
inductive PdfjsShape where
  | notRecord
  | record (w : PdfWorkerField)

/-- `tryCreateWorker` from the source: duck-typed probing of
`pdfjs.PDFWorker`.  A non-record module, a missing/unusable `PDFWorker`, a
throwing `create`/constructor, or a non-record result all yield `none`;
the function itself never throws. -/
def tryCreateWorker : PdfjsShape → Option Unit
  | PdfjsShape.notRecord => none
  | PdfjsShape.record PdfWorkerField.missing => none
  | PdfjsShape.record PdfWorkerField.recordNoCreate => none
  | PdfjsShape.record (PdfWorkerField.recordCreate r) =>
    match r with
    | Except.error _ => none
    | Except.ok CreateOut.record => some ()
    | Except.ok CreateOut.nonRecord => none
  | PdfjsShape.record (PdfWorkerField.func r) =>
    match r with
    | Except.error _ => none
    | Except.ok CreateOut.record => some ()
    | Except.ok CreateOut.nonRecord => none

/-- Embedding of JavaScript `String.prototype.toLowerCase()` as used on
file extensions: lowercase every character. -/
def strToLower (s : String) : String :=
  ⟨s.data.map Char.toLower⟩

/-- Observable side effects of one `renderPdfCoverThumbnail` call: permit
acquisition and release on the render limiter, a worker-creation attempt,
a touch of the worker idle timer, and a `getDocument` call. -/
inductive REvent where
  | acq
  | rel
  | createWorker
  | touchWorker
  | openDoc
deriving DecidableEq, BEq

/-- `getSharedWorkerInstance` from the source: reuses the live shared
worker (touching the idle timer), otherwise attempts creation via
`tryCreateWorker`; on success stores the handle and touches the timer, on
failure returns `none` without failing. -/
def getSharedWorkerInstance (p : PdfjsShape) (g : WorkerPoolState) :
    Option Unit × WorkerPoolState × List REvent :=
  if g.sharedWorker then
    (some (), touchWorkerIdleTimer g, [REvent.touchWorker])
  else
    match tryCreateWorker p with
    | none => (none, g, [REvent.createWorker])
    | some _ =>
      (some (), touchWorkerIdleTimer { g with sharedWorker := true },
        [REvent.createWorker, REvent.touchWorker])

/-- One call's environment: the file fields read by
`renderPdfCoverThumbnail` and the outcomes of each awaited external step.
`docUrl` is `getDocument({url,...}).promise`; on its failure the code falls
back to `readBinary` (`readBin`) and `getDocument({data,...}).promise`
(`docData`).  `getPage` is `doc.getPage(1)` together with the
`isPdfPage` probe and the base viewport dimensions; `ctxOk` is whether
`canvas.getContext('2d')` returns a context; `renderRes` is the outcome of
awaiting `renderTask.promise`; `blob1`/`blob2` are the results of the two
`canvasToBlob` calls (which resolve to `blob ?? null`, never reject). -/
structure PdfEnv where
  extension : String
  fileSize : Nat
  loadPdfJs : Except Unit PdfjsShape
  docUrl : Except Unit Unit
  readBin : Except Unit Unit
  docData : Except Unit Unit
  getPage : Except Unit (Bool × ℚ × ℚ)
  ctxOk : Bool
  renderRes : Except Unit Unit
  blob1 : Option PdfBlob
  blob2 : Option PdfBlob

/-- `PdfCoverThumbnailOptions` from the source. -/
structure PdfCoverThumbnailOptions where
  maxWidth : ℚ
  maxHeight : ℚ
  mimeType : String
  quality : Option ℚ

/-- The inner try/catch of `renderPdfCoverThumbnail` around `getDocument`:
try the `url` source; on a throw, read the file binary and retry with
`data`.  A throw from `readBinary` or from the second `getDocument`
propagates. -/
def openDocResult (env : PdfEnv) : Except Unit Unit :=
  match env.docUrl with
  | Except.ok _ => Except.ok ()
  | Except.error _ =>
    match env.readBin with
    | Except.error _ => Except.error ()
    | Except.ok _ => env.docData

/-- The part of the `try` block of `renderPdfCoverThumbnail` after the
shared-worker lookup: open the document, fetch and validate page 1,
compute the scale, obtain a 2d context, await the render, and convert the
canvas to a blob (falling back to PNG).  `Except.error` is a thrown
exception reaching the outer `catch`; `Except.ok none` is a `return null`
early exit. -/
def bodyAfterWorker (env : PdfEnv) (options : PdfCoverThumbnailOptions) :
    Except Unit (Option PdfBlob) :=
  match openDocResult env with
  | Except.error _ => Except.error ()
  | Except.ok _ =>
    match env.getPage with
    | Except.error _ => Except.error ()
    | Except.ok pg =>
      if pg.1 = false then Except.ok none
      else
        let _scale := calculateScale pg.2.1 pg.2.2 options.maxWidth options.maxHeight
        if env.ctxOk = false then Except.ok none
        else
          match env.renderRes with
          | Except.error _ => Except.error ()
          | Except.ok _ =>
            match env.blob1 with
            | some b => Except.ok (some b)
            | none => Except.ok env.blob2

/-- The full `try` block of `renderPdfCoverThumbnail`: await `loadPdfJs()`
(a throw propagates to the outer catch), look up or create the shared
worker (never throws; `none` simply omits the worker from the document
params), then run the rest of the pipeline. -/
def renderBody (env : PdfEnv) (options : PdfCoverThumbnailOptions) (g : WorkerPoolState) :
    Except Unit (Option PdfBlob) × WorkerPoolState × List REvent :=
  match env.loadPdfJs with
  | Except.error _ => (Except.error (), g, [])
  | Except.ok pdfjs =>
    let ws := getSharedWorkerInstance pdfjs g
    (bodyAfterWorker env options, ws.2.1, ws.2.2 ++ [REvent.openDoc])

/-- `renderPdfCoverThumbnail` from the source: reject non-pdf extensions,
skip files over `MAX_PDF_THUMBNAIL_BYTES` before touching the limiter or
worker, then clear the idle timer, acquire a render permit (modelled as
incrementing the limiter's active count when granted), run the `try`
block, map any thrown exception to `null` in the `catch`, and in the
`finally` best-effort clean up page and document (exceptions swallowed,
no state effect here), release the permit and touch the idle timer. -/
def renderPdfCoverThumbnail (env : PdfEnv) (options : PdfCoverThumbnailOptions)
    (g : WorkerPoolState) : Option PdfBlob × WorkerPoolState × List REvent :=
  if strToLower env.extension ≠ "pdf" then (none, g, [])
  else if MAX_PDF_THUMBNAIL_BYTES < env.fileSize then (none, g, [])
  else
    let g0 := clearWorkerIdleTimer g
    let g1 : WorkerPoolState := { g0 with active := g0.active + 1 }
    let br := renderBody env options g1
    let value : Option PdfBlob :=
      match br.1 with
      | Except.ok r => r
      | Except.error _ => none
    let g2 := br.2.1
    let g3 : WorkerPoolState := { g2 with active := g2.active - 1 }
    let g4 := touchWorkerIdleTimer g3
    (value, g4, REvent.acq :: (br.2.2 ++ [REvent.rel, REvent.touchWorker]))

/-! ## Limiter invariant lemmas -/

/-- The limiter's accounting invariant: the reported active weight is the
sum of the held permits' clamped weights, and it never exceeds the
budget. -/
def LimiterInv (s : BudgetLimiterState) : Prop :=
  s.active = (s.held.sum : Int) ∧ s.active ≤ (s.budget : Int)

theorem admitLoop_inv (B : Nat) (ws : List Nat) :
    ∀ (active : Int) (held : List Nat),
      active = (held.sum : Int) → active ≤ (B : Int) →
      (admitLoop B ws active held).1 = ((admitLoop B ws active held).2.1.sum : Int) ∧
      (admitLoop B ws active held).1 ≤ (B : Int) := by
  induction ws with
  | nil =>
    intro active held h1 h2
    exact ⟨h1, h2⟩
  | cons w ws ih =>
    intro active held h1 h2
    by_cases hc : active + (w : Int) ≤ (B : Int)
    · simp only [admitLoop, if_pos hc]
      refine ih (active + (w : Int)) (w :: held) ?_ hc
      rw [h1]
      push_cast [List.sum_cons]
      ring
    · simp only [admitLoop, if_neg hc]
      exact ⟨h1, h2⟩

theorem sum_eraseIdx_int (l : List Nat) :
    ∀ (i : Nat) (w : Nat), l.get? i = some w →
      ((l.eraseIdx i).sum : Int) = (l.sum : Int) - (w : Int) := by
  induction l with
  | nil =>
    intro i w h
    simp at h
  | cons a l ih =>
    intro i w h
    cases i with
    | zero =>
      simp at h
      subst h
      simp only [List.eraseIdx_cons_zero, List.sum_cons]
      push_cast
      ring
    | succ n =>
      simp at h
      have hrec := ih n w (by simpa using h)
      simp only [List.eraseIdx_cons_succ, List.sum_cons]
      push_cast at hrec ⊢
      omega

theorem limiterStep_budget (s : BudgetLimiterState) (e : LimiterEvent) :
    (limiterStep s e).budget = s.budget := by
  cases e with
  | acquireReq w => rfl
  | releasePermit i =>
    simp only [limiterStep]
    cases s.held.get? i <;> rfl

theorem limiterStep_inv (s : BudgetLimiterState) (e : LimiterEvent) (h : LimiterInv s) :
    LimiterInv (limiterStep s e) := by
  obtain ⟨h1, h2⟩ := h
  cases e with
  | acquireReq w =>
    exact admitLoop_inv s.budget (s.waiting ++ [min w s.budget]) s.active s.held h1 h2
  | releasePermit i =>
    simp only [limiterStep]
    cases hg : s.held.get? i with
    | none => exact ⟨h1, h2⟩
    | some w =>
      have hsum := sum_eraseIdx_int s.held i w hg
      have hw : (0 : Int) ≤ (w : Int) := Int.natCast_nonneg w
      refine admitLoop_inv s.budget s.waiting (s.active - (w : Int)) (s.held.eraseIdx i) ?_ ?_
      · rw [h1, hsum]
      · omega

theorem runLimiter_aux (B : Nat) (events : List LimiterEvent) :
    ∀ (s : BudgetLimiterState), s.budget = B → LimiterInv s →
      (events.foldl limiterStep s).budget = B ∧ LimiterInv (events.foldl limiterStep s) := by
  induction events with
  | nil =>
    intro s hb hinv
    exact ⟨hb, hinv⟩
  | cons e events ih =>
    intro s hb hinv
    refine ih (limiterStep s e) ?_ (limiterStep_inv s e hinv)
    rw [limiterStep_budget, hb]

/-- C10: with all four dimensions strictly positive, `calculateScale` returns
`min 1 (min (maxWidth/baseWidth) (maxHeight/baseHeight))`, a positive value
at most 1 under which the scaled page fits in the max bounds; with any
dimension nonpositive it returns exactly 1. -/
theorem calculateScale_spec (baseWidth baseHeight maxWidth maxHeight : ℚ) :
    (0 < baseWidth → 0 < baseHeight → 0 < maxWidth → 0 < maxHeight →
      calculateScale baseWidth baseHeight maxWidth maxHeight =
        min 1 (min (maxWidth / baseWidth) (maxHeight / baseHeight)) ∧
      0 < calculateScale baseWidth baseHeight maxWidth maxHeight ∧
      calculateScale baseWidth baseHeight maxWidth maxHeight ≤ 1 ∧
      baseWidth * calculateScale baseWidth baseHeight maxWidth maxHeight ≤ maxWidth ∧
      baseHeight * calculateScale baseWidth baseHeight maxWidth maxHeight ≤ maxHeight) ∧
    (baseWidth ≤ 0 ∨ baseHeight ≤ 0 ∨ maxWidth ≤ 0 ∨ maxHeight ≤ 0 →
      calculateScale baseWidth baseHeight maxWidth maxHeight = 1) := by
  constructor
  · intro hbw hbh hmw hmh
    have hcond : ¬(baseWidth ≤ 0 ∨ baseHeight ≤ 0 ∨ maxWidth ≤ 0 ∨ maxHeight ≤ 0) := by
      push_neg
      exact ⟨hbw, hbh, hmw, hmh⟩
    have heq : calculateScale baseWidth baseHeight maxWidth maxHeight =
        min 1 (min (maxWidth / baseWidth) (maxHeight / baseHeight)) := by
      simp [calculateScale, hcond]
    refine ⟨heq, ?_, ?_, ?_, ?_⟩
    · rw [heq]
      have h1 : (0 : ℚ) < maxWidth / baseWidth := div_pos hmw hbw
      have h2 : (0 : ℚ) < maxHeight / baseHeight := div_pos hmh hbh
      simp only [lt_min_iff]
      exact ⟨one_pos, h1, h2⟩
    · rw [heq]
      exact min_le_left _ _
    · rw [heq]
      have hle : min 1 (min (maxWidth / baseWidth) (maxHeight / baseHeight)) ≤
          maxWidth / baseWidth :=
        le_trans (min_le_right _ _) (min_le_left _ _)
      calc baseWidth * min 1 (min (maxWidth / baseWidth) (maxHeight / baseHeight))
          ≤ baseWidth * (maxWidth / baseWidth) := by
            exact mul_le_mul_of_nonneg_left hle (le_of_lt hbw)
        _ = maxWidth := by field_simp
    · rw [heq]
      have hle : min 1 (min (maxWidth / baseWidth) (maxHeight / baseHeight)) ≤
          maxHeight / baseHeight :=
        le_trans (min_le_right _ _) (min_le_right _ _)
      calc baseHeight * min 1 (min (maxWidth / baseWidth) (maxHeight / baseHeight))
          ≤ baseHeight * (maxHeight / baseHeight) := by
            exact mul_le_mul_of_nonneg_left hle (le_of_lt hbh)
        _ = maxHeight := by field_simp
  · intro hcond
    simp [calculateScale, hcond]

/-- C10 witness: at base 4×2 and max 2×2 the scale is 1/2; at a zero base
width the scale is 1. -/
theorem calculateScale_spec_witness :
    calculateScale 4 2 2 2 = 1 / 2 ∧ calculateScale 0 2 2 2 = 1 := by
  have h := calculateScale_spec 4 2 2 2
  have h0 := calculateScale_spec 0 2 2 2
  constructor
  · have := (h.1 (by norm_num) (by norm_num) (by norm_num) (by norm_num)).1
    rw [this]
    norm_num
  · exact h0.2 (by norm_num)

/-- C1: for every sequence of acquire/release events on a limiter created
with total budget `budget`, the value reported by `getActiveWeight` never
goes negative and never exceeds the budget — the bound holds even in the
clamped-overweight-alone case, where the single admitted request's weight
has been clamped to exactly the budget. -/
theorem limiter_activeWeight_in_bounds (budget : Nat) (events : List LimiterEvent) :
    0 ≤ getActiveWeight (runLimiter budget events) ∧
    getActiveWeight (runLimiter budget events) ≤ (budget : Int) := by
  obtain ⟨hb, h1, h2⟩ := runLimiter_aux budget events (initLimiter budget) rfl
    ⟨rfl, Int.natCast_nonneg budget⟩
  constructor
  · show (0 : Int) ≤ (runLimiter budget events).active
    calc (0 : Int) ≤ ((runLimiter budget events).held.sum : Int) := Int.natCast_nonneg _
      _ = (runLimiter budget events).active := h1.symm
  · show (runLimiter budget events).active ≤ (budget : Int)
    calc (runLimiter budget events).active
        ≤ ((runLimiter budget events).budget : Int) := h2
      _ = (budget : Int) := by rw [show (runLimiter budget events).budget = budget from hb]

/-- C2 counterexample: with a live shared worker, an armed idle timer and
one active render, firing the timer leaves the worker alive but does NOT
re-arm the timer: the callback's call to `touchWorkerIdleTimer` clears the
timeout id and its `getActiveCount() > 0` guard returns before a new
timeout is installed. -/
theorem timerFire_does_not_rearm :
    (timerFire ⟨true, true, 1⟩).sharedWorker = true ∧
    (timerFire ⟨true, true, 1⟩).timerArmed = false := by
  decide

/-- C2 (amended): when the idle timer fires while the limiter's active
count is positive, the shared worker survives (only the timer state
changes, and it is left disarmed — a fresh timer is armed later, when a
render completes and touches the idle timer with zero active weight);
the worker is destroyed, with the handle cleared, only when the timer
fires with active count zero. -/
theorem timerFire_destroys_only_when_idle (g : WorkerPoolState)
    (harmed : g.timerArmed = true) :
    (0 < g.active → timerFire g = { g with timerArmed := false }) ∧
    (g.active = 0 →
      (timerFire g).sharedWorker = false ∧ (timerFire g).timerArmed = false) := by
  constructor
  · intro hpos
    rw [timerFire, if_pos hpos]
    rw [touchWorkerIdleTimer, clearWorkerIdleTimer]
    by_cases hw : g.sharedWorker = false
    · simp [hw]
    · simp [hw, hpos]
  · intro hzero
    rw [timerFire, if_neg (by omega)]
    rw [destroySharedWorker, clearWorkerIdleTimer]
    exact ⟨rfl, rfl⟩

/-- C2 witness: concrete instances of both branches of the amended
theorem — firing at one active render keeps the worker and disarms the
timer; firing at zero active renders destroys the worker. -/
theorem timerFire_destroys_only_when_idle_witness :
    timerFire ⟨true, true, 1⟩ = ⟨true, false, 1⟩ ∧
    (timerFire ⟨true, true, 0⟩).sharedWorker = false := by
  refine ⟨?_, ?_⟩
  · exact (timerFire_destroys_only_when_idle ⟨true, true, 1⟩ rfl).1 (by decide)
  · exact ((timerFire_destroys_only_when_idle ⟨true, true, 0⟩ rfl).2 rfl).1

/-- C3: when reading the document fails inside `processFile` (preview
enabled, markdown file, not Excalidraw): a record with a non-null stored
preview is left untouched (`processFile` returns `null`); with no record,
or a record whose stored preview is null, the returned update carries the
empty-string sentinel; and a second failed attempt on the now-sentinel
record returns `null` again, so no second write occurs. -/
theorem processFile_read_failure_policy (s : NotebookNavigatorSettings) (file : MFile)
    (extract : String → String) (hs : s.showFilePreview = true)
    (hx : file.extension = "md") :
    (∀ fd : FileData, fd.preview ≠ none →
      PreviewContentProvider.processFile s file false (Except.error ()) extract (some fd) =
        none) ∧
    (PreviewContentProvider.processFile s file false (Except.error ()) extract none =
      some ⟨file.path, ""⟩) ∧
    (∀ fd : FileData, fd.preview = none →
      PreviewContentProvider.processFile s file false (Except.error ()) extract (some fd) =
        some ⟨file.path, ""⟩) ∧
    (∀ fd : FileData,
      PreviewContentProvider.processFile s file false (Except.error ()) extract
        (some { fd with preview := some "" }) = none) := by
  refine ⟨?_, ?_, ?_, ?_⟩
  · intro fd hp
    simp [PreviewContentProvider.processFile, hs, hx, hp]
  · simp [PreviewContentProvider.processFile, hs, hx]
  · intro fd hp
    simp [PreviewContentProvider.processFile, hs, hx, hp]
  · intro fd
    simp [PreviewContentProvider.processFile, hs, hx]

/-- C3 witness: a concrete failed read on a record with preview "x" writes
nothing; on a record with a null preview it writes the sentinel; a second
failure on the sentinel record writes nothing. -/
theorem processFile_read_failure_policy_witness :
    (PreviewContentProvider.processFile ⟨true, false, false, false, []⟩
      ⟨"a.md", "a.md", "md", 0⟩ false (Except.error ()) id (some ⟨0, some "x"⟩) = none) ∧
    (PreviewContentProvider.processFile ⟨true, false, false, false, []⟩
      ⟨"a.md", "a.md", "md", 0⟩ false (Except.error ()) id (some ⟨0, none⟩) =
        some ⟨"a.md", ""⟩) ∧
    (PreviewContentProvider.processFile ⟨true, false, false, false, []⟩
      ⟨"a.md", "a.md", "md", 0⟩ false (Except.error ()) id (some ⟨0, some ""⟩) = none) := by
  have h := processFile_read_failure_policy ⟨true, false, false, false, []⟩
    ⟨"a.md", "a.md", "md", 0⟩ id rfl rfl
  refine ⟨h.1 ⟨0, some "x"⟩ (by simp), h.2.1.trans ?_, h.2.2.2 ⟨0, none⟩⟩
  rfl

/-- C4: `shouldRegenerate old new` returns true exactly when preview was
enabled in `old` and is disabled in `new`, or preview is enabled in `new`
and at least one relevant option — the enable flag, skip-headings,
skip-code-blocks, strip-HTML, or the preview-properties list compared by
deep (list) equality — differs between the snapshots. -/
theorem shouldRegenerate_spec (o n : NotebookNavigatorSettings) :
    PreviewContentProvider.shouldRegenerate o n = true ↔
      ((o.showFilePreview = true ∧ n.showFilePreview = false) ∨
       (n.showFilePreview = true ∧
         (o.showFilePreview ≠ n.showFilePreview ∨
          o.skipHeadingsInPreview ≠ n.skipHeadingsInPreview ∨
          o.skipCodeBlocksInPreview ≠ n.skipCodeBlocksInPreview ∨
          o.stripHtmlInPreview ≠ n.stripHtmlInPreview ∨
          o.previewProperties ≠ n.previewProperties))) := by
  cases ho : o.showFilePreview <;> cases hn : n.showFilePreview <;>
    simp [PreviewContentProvider.shouldRegenerate, ho, hn] <;>
    tauto

/-- C5: `needsProcessing` returns false when the preview feature is
disabled or the file is not markdown; otherwise it returns true exactly
when no record exists, the stored preview is null, or the file's
modification time differs from the recorded one — for Excalidraw and
non-Excalidraw files alike. -/
theorem needsProcessing_spec (fileData : Option FileData) (file : MFile)
    (s : NotebookNavigatorSettings) (isExcalidraw : Bool) :
    PreviewContentProvider.needsProcessing fileData file s isExcalidraw = true ↔
      (s.showFilePreview = true ∧ file.extension = "md" ∧
        (fileData = none ∨
         ∃ fd, fileData = some fd ∧ (fd.preview = none ∨ fd.mtime ≠ file.mtime))) := by
  cases fileData with
  | none =>
    cases isExcalidraw <;>
      by_cases hs : s.showFilePreview = true <;>
      by_cases hx : file.extension = "md" <;>
      simp [PreviewContentProvider.needsProcessing, hs, hx] <;>
      tauto
  | some fd =>
    cases isExcalidraw <;>
      by_cases hs : s.showFilePreview = true <;>
      by_cases hx : file.extension = "md" <;>
      simp [PreviewContentProvider.needsProcessing, hs, hx, Option.isNone_iff_eq_none] <;>
      tauto

/-- C6: on the extraction path (preview enabled, markdown, not
Excalidraw, read succeeded), `processFile` returns `null` when the
computed preview equals the stored one, and returns an update carrying
the new preview exactly when the computed value differs from the stored
one or no record exists. -/
theorem processFile_unchanged_returns_null (s : NotebookNavigatorSettings)
    (file : MFile) (extract : String → String) (content : String)
    (hs : s.showFilePreview = true) (hx : file.extension = "md") :
    (∀ fd : FileData, fd.preview = some (extract content) →
      PreviewContentProvider.processFile s file false (Except.ok content) extract (some fd) =
        none) ∧
    (∀ fd : FileData, fd.preview ≠ some (extract content) →
      PreviewContentProvider.processFile s file false (Except.ok content) extract (some fd) =
        some ⟨file.path, extract content⟩) ∧
    (PreviewContentProvider.processFile s file false (Except.ok content) extract none =
      some ⟨file.path, extract content⟩) := by
  refine ⟨?_, ?_, ?_⟩
  · intro fd hp
    simp [PreviewContentProvider.processFile, hs, hx, hp]
  · intro fd hp
    simp [PreviewContentProvider.processFile, hs, hx, hp]
  · simp [PreviewContentProvider.processFile, hs, hx]

/-- C6 witness: with identity extraction of content "p", a record storing
"p" yields no write; a record storing "q" and an absent record both yield
an update carrying "p". -/
theorem processFile_unchanged_returns_null_witness :
    (PreviewContentProvider.processFile ⟨true, false, false, false, []⟩
      ⟨"a.md", "a.md", "md", 0⟩ false (Except.ok "p") id (some ⟨0, some "p"⟩) = none) ∧
    (PreviewContentProvider.processFile ⟨true, false, false, false, []⟩
      ⟨"a.md", "a.md", "md", 0⟩ false (Except.ok "p") id (some ⟨0, some "q"⟩) =
        some ⟨"a.md", "p"⟩) ∧
    (PreviewContentProvider.processFile ⟨true, false, false, false, []⟩
      ⟨"a.md", "a.md", "md", 0⟩ false (Except.ok "p") id none = some ⟨"a.md", "p"⟩) := by
  have h := processFile_unchanged_returns_null ⟨true, false, false, false, []⟩
    ⟨"a.md", "a.md", "md", 0⟩ id "p" rfl rfl
  exact ⟨h.1 ⟨0, some "p"⟩ rfl, h.2.1 ⟨0, some "q"⟩ (by simp), h.2.2⟩

/-! ## Worker pool and render pipeline lemmas -/

theorem touchWorkerIdleTimer_active (g : WorkerPoolState) :
    (touchWorkerIdleTimer g).active = g.active := by
  simp only [touchWorkerIdleTimer, clearWorkerIdleTimer]
  split
  · rfl
  · split <;> rfl

theorem getSharedWorkerInstance_trace (p : PdfjsShape) (g : WorkerPoolState) :
    (getSharedWorkerInstance p g).2.2 = [REvent.touchWorker] ∨
    (getSharedWorkerInstance p g).2.2 = [REvent.createWorker] ∨
    (getSharedWorkerInstance p g).2.2 = [REvent.createWorker, REvent.touchWorker] := by
  by_cases hw : g.sharedWorker = true
  · left
    simp [getSharedWorkerInstance, hw]
  · rcases htc : tryCreateWorker p with _ | u
    · right
      left
      simp [getSharedWorkerInstance, hw, htc]
    · right
      right
      simp [getSharedWorkerInstance, hw, htc]

theorem getSharedWorkerInstance_active (p : PdfjsShape) (g : WorkerPoolState) :
    (getSharedWorkerInstance p g).2.1.active = g.active := by
  by_cases hw : g.sharedWorker = true
  · simp [getSharedWorkerInstance, hw, touchWorkerIdleTimer_active]
  · rcases htc : tryCreateWorker p with _ | u <;>
      simp [getSharedWorkerInstance, hw, htc, touchWorkerIdleTimer_active]

theorem renderBody_active (env : PdfEnv) (options : PdfCoverThumbnailOptions)
    (g : WorkerPoolState) : (renderBody env options g).2.1.active = g.active := by
  rcases hl : env.loadPdfJs with e | pj <;>
    simp [renderBody, hl, getSharedWorkerInstance_active]

theorem renderBody_count_rel (env : PdfEnv) (options : PdfCoverThumbnailOptions)
    (g : WorkerPoolState) : ((renderBody env options g).2.2).count REvent.rel = 0 := by
  rcases hl : env.loadPdfJs with e | pj
  · simp [renderBody, hl]
  · simp only [renderBody, hl]
    rcases getSharedWorkerInstance_trace pj g with h | h | h <;> rw [h] <;> decide

theorem renderBody_count_acq (env : PdfEnv) (options : PdfCoverThumbnailOptions)
    (g : WorkerPoolState) : ((renderBody env options g).2.2).count REvent.acq = 0 := by
  rcases hl : env.loadPdfJs with e | pj
  · simp [renderBody, hl]
  · simp only [renderBody, hl]
    rcases getSharedWorkerInstance_trace pj g with h | h | h <;> rw [h] <;> decide

/-- C7: whenever a call to `renderPdfCoverThumbnail` acquires a render
permit (the event trace records an acquire), the release capability is
invoked exactly once before the call completes — on normal blob returns,
null-returning early exits, and exceptions alike — and the limiter's
active count after the call equals its value before the acquire. -/
theorem renderPdf_release_exactly_once (env : PdfEnv)
    (options : PdfCoverThumbnailOptions) (g : WorkerPoolState)
    (hacq : ((renderPdfCoverThumbnail env options g).2.2).count REvent.acq = 1) :
    ((renderPdfCoverThumbnail env options g).2.2).count REvent.rel = 1 ∧
    (renderPdfCoverThumbnail env options g).2.1.active = g.active := by
  by_cases h1 : strToLower env.extension = "pdf"
  · by_cases h2 : MAX_PDF_THUMBNAIL_BYTES < env.fileSize
    · exfalso
      rw [renderPdfCoverThumbnail] at hacq
      simp [h1, h2] at hacq
    · constructor
      · simp [renderPdfCoverThumbnail, h1, h2, List.count_cons, List.count_append,
          renderBody_count_rel]
        decide
      · simp [renderPdfCoverThumbnail, h1, h2, touchWorkerIdleTimer_active,
          renderBody_active, clearWorkerIdleTimer]
  · exfalso
    rw [renderPdfCoverThumbnail] at hacq
    simp [h1] at hacq

/-- C7 witness: a concrete successful render acquires once, releases once
and restores the active count to zero. -/
theorem renderPdf_release_exactly_once_witness :
    ((renderPdfCoverThumbnail
        ⟨"pdf", 1000, Except.ok PdfjsShape.notRecord, Except.ok (), Except.error (),
          Except.error (), Except.ok (true, 4, 2), true, Except.ok (), some 7, none⟩
        ⟨100, 100, "image/webp", none⟩ ⟨false, false, 0⟩).2.2).count REvent.rel = 1 ∧
    (renderPdfCoverThumbnail
        ⟨"pdf", 1000, Except.ok PdfjsShape.notRecord, Except.ok (), Except.error (),
          Except.error (), Except.ok (true, 4, 2), true, Except.ok (), some 7, none⟩
        ⟨100, 100, "image/webp", none⟩ ⟨false, false, 0⟩).2.1.active = 0 :=
  renderPdf_release_exactly_once
    ⟨"pdf", 1000, Except.ok PdfjsShape.notRecord, Except.ok (), Except.error (),
      Except.error (), Except.ok (true, 4, 2), true, Except.ok (), some 7, none⟩
    ⟨100, 100, "image/webp", none⟩ ⟨false, false, 0⟩ (by decide)

/-- C8: heavy-renderer failure never propagates to the caller: a throwing
`PDFWorker.create` or constructor makes `tryCreateWorker` yield `null`
rather than raise; when the worker cannot be constructed, rendering still
proceeds and can produce a blob; and when document open (both the url and
the data fallback) or page rendering throws, `renderPdfCoverThumbnail`
catches the exception and returns `null` instead of raising. -/
theorem renderPdf_failures_contained (p : PdfjsShape) (env : PdfEnv)
    (options : PdfCoverThumbnailOptions) (g : WorkerPoolState) (b : PdfBlob)
    (bw bh : ℚ) :
    (tryCreateWorker (PdfjsShape.record (PdfWorkerField.recordCreate (Except.error ()))) =
      none) ∧
    (tryCreateWorker (PdfjsShape.record (PdfWorkerField.func (Except.error ()))) = none) ∧
    (env.docUrl = Except.error () → env.readBin = Except.error () →
      (renderPdfCoverThumbnail env options g).1 = none) ∧
    (env.renderRes = Except.error () →
      (renderPdfCoverThumbnail env options g).1 = none) ∧
    (strToLower env.extension = "pdf" → env.fileSize ≤ MAX_PDF_THUMBNAIL_BYTES →
      env.loadPdfJs = Except.ok p → tryCreateWorker p = none → g.sharedWorker = false →
      env.docUrl = Except.ok () → env.getPage = Except.ok (true, bw, bh) →
      env.ctxOk = true → env.renderRes = Except.ok () → env.blob1 = some b →
      (renderPdfCoverThumbnail env options g).1 = some b) := by
  refine ⟨rfl, rfl, ?_, ?_, ?_⟩
  · intro hdoc hbin
    simp only [renderPdfCoverThumbnail]
    split_ifs
    · rfl
    · rfl
    · rcases hl : env.loadPdfJs with e | pj <;>
        simp [renderBody, bodyAfterWorker, openDocResult, hdoc, hbin, hl]
  · intro hren
    simp only [renderPdfCoverThumbnail]
    split_ifs
    · rfl
    · rfl
    · rcases hl : env.loadPdfJs with e | pj
      · simp [renderBody, hl]
      · cases hod : openDocResult env with
        | error e => simp [renderBody, hl, bodyAfterWorker, hod]
        | ok u =>
          cases hgp : env.getPage with
          | error e => simp [renderBody, hl, bodyAfterWorker, hod, hgp]
          | ok pg =>
            by_cases hp : pg.1 = false
            · simp [renderBody, hl, bodyAfterWorker, hod, hgp, hp]
            · by_cases hctx : env.ctxOk = false
              · simp [renderBody, hl, bodyAfterWorker, hod, hgp, hp, hctx]
              · simp [renderBody, hl, bodyAfterWorker, hod, hgp, hp, hctx, hren]
  · intro hext hsz hl htc hw hdoc hgp hctx hren hblob
    have hsize : ¬MAX_PDF_THUMBNAIL_BYTES < env.fileSize := not_lt.mpr hsz
    simp [renderPdfCoverThumbnail, hext, hsize, renderBody, hl,
      getSharedWorkerInstance, htc, hw, bodyAfterWorker, openDocResult, hdoc, hgp,
      hctx, hren, hblob]

/-- C8 witness: concretely, a render with an unusable pdf.js module (no
worker) and successful remaining steps yields a blob; a render whose
`await renderTask.promise` throws yields `null`; and a throwing
`PDFWorker.create` yields no worker. -/
theorem renderPdf_failures_contained_witness :
    (renderPdfCoverThumbnail
        ⟨"pdf", 1000, Except.ok PdfjsShape.notRecord, Except.ok (), Except.error (),
          Except.error (), Except.ok (true, 4, 2), true, Except.ok (), some 7, none⟩
        ⟨100, 100, "image/webp", none⟩ ⟨false, false, 0⟩).1 = some 7 ∧
    (renderPdfCoverThumbnail
        ⟨"pdf", 1000, Except.ok PdfjsShape.notRecord, Except.ok (), Except.error (),
          Except.error (), Except.ok (true, 4, 2), true, Except.error (), some 7, none⟩
        ⟨100, 100, "image/webp", none⟩ ⟨false, false, 0⟩).1 = none ∧
    tryCreateWorker (PdfjsShape.record (PdfWorkerField.recordCreate (Except.error ()))) =
      none := by
  refine ⟨?_, ?_, ?_⟩
  · exact (renderPdf_failures_contained PdfjsShape.notRecord
      ⟨"pdf", 1000, Except.ok PdfjsShape.notRecord, Except.ok (), Except.error (),
        Except.error (), Except.ok (true, 4, 2), true, Except.ok (), some 7, none⟩
      ⟨100, 100, "image/webp", none⟩ ⟨false, false, 0⟩ 7 4 2).2.2.2.2
      rfl (by decide) rfl rfl rfl rfl rfl rfl rfl rfl
  · exact (renderPdf_failures_contained PdfjsShape.notRecord
      ⟨"pdf", 1000, Except.ok PdfjsShape.notRecord, Except.ok (), Except.error (),
        Except.error (), Except.ok (true, 4, 2), true, Except.error (), some 7, none⟩
      ⟨100, 100, "image/webp", none⟩ ⟨false, false, 0⟩ 7 4 2).2.2.2.1 rfl
  · exact (renderPdf_failures_contained PdfjsShape.notRecord
      ⟨"pdf", 1000, Except.ok PdfjsShape.notRecord, Except.ok (), Except.error (),
        Except.error (), Except.ok (true, 4, 2), true, Except.ok (), some 7, none⟩
      ⟨100, 100, "image/webp", none⟩ ⟨false, false, 0⟩ 7 4 2).1

/-- C9: a PDF file whose size exceeds `MAX_PDF_THUMBNAIL_BYTES` (25 MiB)
makes `renderPdfCoverThumbnail` return `null` immediately: the returned
state is the input state unchanged and the event trace is empty, so no
permit was acquired, no worker was created or touched, and no document
was opened. -/
theorem renderPdf_oversize_skip (env : PdfEnv) (options : PdfCoverThumbnailOptions)
    (g : WorkerPoolState) (hext : strToLower env.extension = "pdf")
    (hsize : MAX_PDF_THUMBNAIL_BYTES < env.fileSize) :
    renderPdfCoverThumbnail env options g = (none, g, []) := by
  simp [renderPdfCoverThumbnail, hext, hsize]

/-- C9 witness: a 26 MiB pdf file is skipped with no state change and no
events. -/
theorem renderPdf_oversize_skip_witness :
    renderPdfCoverThumbnail
        ⟨"pdf", 26 * 1024 * 1024, Except.error (), Except.error (), Except.error (),
          Except.error (), Except.error (), false, Except.error (), none, none⟩
        ⟨100, 100, "image/webp", none⟩ ⟨true, true, 1⟩ =
      (none, ⟨true, true, 1⟩, []) :=
  renderPdf_oversize_skip
    ⟨"pdf", 26 * 1024 * 1024, Except.error (), Except.error (), Except.error (),
      Except.error (), Except.error (), false, Except.error (), none, none⟩
    ⟨100, 100, "image/webp", none⟩ ⟨true, true, 1⟩ rfl (by decide)
